import Mathlib

/-!
Verification of the ALC (device/context) layer of the `alto` OpenAL wrapper,
shallowly embedded from `src/alc.rs`.

Modelling conventions:
* C byte strings (`CStr`/`CString`) are `List Nat` of their bytes (NUL excluded).
* Raw native device handles (`*mut ALCdevice`) are `Nat`, with `0` for the null
  pointer.
* Native calls are oracles: the value a native call returns and the error code
  the subsequent `alcGetError` poll reports are passed in as explicit arguments
  (or fields of an `AltoEnv` record), since the native library is an external
  collaborator.
* `AltoResult<T>` is `Except AltoError T`.
-/

/-- Errors surfaced by the ALC layer.  The variants used by `src/alc.rs` are the
typed ALC error codes, the unsupported-version error of `check_version`, and
extension-resolution failures (the `ext` module is external to `src/alc.rs`, so
a single variant stands for an extension or extension-field that failed to
resolve). -/
inductive AltoError where
  | AlcInvalidDevice
  | AlcInvalidContext
  | AlcInvalidEnum
  | AlcInvalidValue
  | AlcOutOfMemory
  | AlcUnsupportedVersion
  | AlcExtensionNotPresent
  | AlcUnknownError (code : Int)
  deriving DecidableEq, Repr

/-- `AltoResult<T>` from the crate root. -/
abbrev AltoResult (α : Type) : Type := Except AltoError α

deriving instance DecidableEq for Except

/- Standard ALC integer constants (the `sys` crate is generated from the
standard `alc.h` header and is external to `src/alc.rs`). -/

def ALC_NO_ERROR : Int := 0
def ALC_INVALID_DEVICE : Int := 0xA001
def ALC_INVALID_CONTEXT : Int := 0xA002
def ALC_INVALID_ENUM : Int := 0xA003
def ALC_INVALID_VALUE : Int := 0xA004
def ALC_OUT_OF_MEMORY : Int := 0xA005
def ALC_FREQUENCY : Int := 0x1007
def ALC_REFRESH : Int := 0x1008
def ALC_MONO_SOURCES : Int := 0x1010
def ALC_STEREO_SOURCES : Int := 0x1011
def ALC_TRUE : Int := 1
def ALC_FALSE : Int := 0
def ALC_DEFAULT_DEVICE_SPECIFIER : Int := 0x1004
def ALC_DEVICE_SPECIFIER : Int := 0x1005
def ALC_CAPTURE_DEFAULT_DEVICE_SPECIFIER : Int := 0x311
def ALC_CAPTURE_DEVICE_SPECIFIER : Int := 0x310

/-- Modelled from the spec: `AltoError::from_alc` lives in the crate root, not
in `src/alc.rs`; per the spec's error taxonomy it maps each non-zero native
error code to the corresponding typed error (invalid device/context/enum/value,
out-of-memory), with unknown codes kept distinguishable. -/
def AltoError.from_alc (e : Int) : AltoError :=
  if e = ALC_INVALID_DEVICE then .AlcInvalidDevice
  else if e = ALC_INVALID_CONTEXT then .AlcInvalidContext
  else if e = ALC_INVALID_ENUM then .AlcInvalidEnum
  else if e = ALC_INVALID_VALUE then .AlcInvalidValue
  else if e = ALC_OUT_OF_MEMORY then .AlcOutOfMemory
  else .AlcUnknownError e

/-- `Alto::get_error`: polls `alcGetError` (whose returned code is the `code`
argument) and converts it to a typed result. -/
def Alto.get_error (code : Int) : AltoResult Unit :=
  if code = ALC_NO_ERROR then .ok () else .error (.from_alc code)

/-! ## Enumeration parser (`Alto::parse_enum_spec`)

The Rust scan loop walks an index `i` from 0 and stops at the first `i` with
`spec[i] = spec[i+1] = 0`; on a table whose double-NUL terminator is present
this touches no byte beyond the terminator.  The byte table is modelled as a
`List Nat`; on a malformed table with no double NUL the Rust loop reads out of
bounds, which the list model cuts off at the end of the list. -/

/-- The index at which the scan loop of `Alto::parse_enum_spec` breaks: the
first position whose byte and successor byte are both zero. -/
def enumScanLen : List Nat → Nat
  | 0 :: 0 :: _ => 0
  | _ :: rest => 1 + enumScanLen rest
  | [] => 0

/-- Rust `slice::split(|c| *c == 0)`: splits at every zero byte, dropping the
separators; always yields at least one (possibly empty) piece — in particular
it yields `[[]]` on the empty slice. -/
def splitOnZero : List Nat → List (List Nat)
  | [] => [[]]
  | 0 :: rest => [] :: splitOnZero rest
  | c :: rest =>
    match splitOnZero rest with
    | s :: ss => (c :: s) :: ss
    | [] => [[c]]

/-- `Alto::parse_enum_spec`: scans for the double NUL, takes the bytes before
it, and splits them on NUL into the individual specifier strings
(`CString::new` on a NUL-free byte run is the identity in the byte-list
model). -/
def Alto.parse_enum_spec (spec : List Nat) : AltoResult (List (List Nat)) :=
  Except.ok (splitOnZero (spec.take (enumScanLen spec)))

/-- Whether a byte list contains two adjacent zero bytes (used to state
well-formedness of the portion before an enumeration table's terminator). -/
def hasAdjZero : List Nat → Bool
  | 0 :: 0 :: _ => true
  | _ :: rest => hasAdjZero rest
  | [] => false

/-! ## Version check (`Alto::check_version`) -/

/-- `Alto::check_version`: accepts exactly the libraries reporting major
version 1 and minor version at least 1 (`major == 1 && minor >= 1`); every
other reported version is the unsupported-version error.  `load_default` and
`load` run this check immediately after loading, before any device can be
opened. -/
def Alto.check_version (major minor : Int) : AltoResult Unit :=
  if major = 1 ∧ minor ≥ 1 then .ok () else .error .AlcUnsupportedVersion

/-! ## Context attributes (`ContextAttrs`, `Device::make_attrs_vec`) -/

/-- `ContextAttrs`: the recognized context-creation options, each optional. -/
structure ContextAttrs where
  frequency : Option Int
  refresh : Option Int
  mono_sources : Option Int
  stereo_sources : Option Int
  soft_hrtf : Option Bool
  soft_hrtf_id : Option Int
  deriving DecidableEq, Repr

/-- The `ALC_SOFT_HRTF` extension record as consumed by `make_attrs_vec`: its
two named constants, each individually fallible (the `ext` module resolving
them is external to `src/alc.rs`). -/
structure SoftHrtfExt where
  ALC_HRTF_SOFT : AltoResult Int
  ALC_HRTF_ID_SOFT : AltoResult Int
  deriving DecidableEq, Repr

/-- `Device::make_attrs_vec`: builds the flat key/value attribute list.  The
device's `self.exts.ALC_SOFT_HRTF()` cache lookup is passed in as `hrtfExt`.
Present options append their `[key, value]` pair in source order; if the HRTF
extension resolved, the two HRTF options additionally consult its constants,
whose resolution failure propagates (`?`); the list is terminated by a single
`0` (only in the `Some(attrs)` case — `None` yields the empty list). -/
def Device.make_attrs_vec (hrtfExt : AltoResult SoftHrtfExt) (attrs : Option ContextAttrs) :
    AltoResult (List Int) :=
  match attrs with
  | none => Except.ok []
  | some a =>
    let v1 : List Int := match a.frequency with
      | some f => [ALC_FREQUENCY, f]
      | none => []
    let v2 : List Int := v1 ++ match a.refresh with
      | some r => [ALC_REFRESH, r]
      | none => []
    let v3 : List Int := v2 ++ match a.mono_sources with
      | some m => [ALC_MONO_SOURCES, m]
      | none => []
    let v4 : List Int := v3 ++ match a.stereo_sources with
      | some s => [ALC_STEREO_SOURCES, s]
      | none => []
    match hrtfExt with
    | Except.error _ => Except.ok (v4 ++ [0])
    | Except.ok ash =>
      match (match a.soft_hrtf with
             | none => Except.ok v4
             | some h =>
               match ash.ALC_HRTF_SOFT with
               | Except.error e => Except.error e
               | Except.ok k =>
                 Except.ok (v4 ++ [k, if h then ALC_TRUE else ALC_FALSE])) with
      | Except.error e => Except.error e
      | Except.ok v5 =>
        match (match a.soft_hrtf_id with
               | none => Except.ok v5
               | some hid =>
                 match ash.ALC_HRTF_ID_SOFT with
                 | Except.error e => Except.error e
                 | Except.ok k => Except.ok (v5 ++ [k, hid])) with
        | Except.error e => Except.error e
        | Except.ok v6 => Except.ok (v6 ++ [0])

/-- Whether an extension cache lookup succeeded. -/
def extResolved {α : Type} : AltoResult α → Bool
  | Except.ok _ => true
  | Except.error _ => false

/-- The number of options of a `ContextAttrs` that actually emit a key/value
pair in `make_attrs_vec`: the four standard options when present, plus the two
HRTF options when present and the HRTF extension resolved. -/
def numPresent (hrtfOk : Bool) (a : ContextAttrs) : Nat :=
  (if a.frequency.isSome then 1 else 0)
  + (if a.refresh.isSome then 1 else 0)
  + (if a.mono_sources.isSome then 1 else 0)
  + (if a.stereo_sources.isSome then 1 else 0)
  + (if hrtfOk then
      (if a.soft_hrtf.isSome then 1 else 0) + (if a.soft_hrtf_id.isSome then 1 else 0)
    else 0)

/-! ## Device family and the `Alto` environment

`Alto` owns the loaded native API and the null-device extension cache; the
native calls and cache lookups its methods perform are modelled as an
environment record.  `getString` maps an `alcGetString(NULL, param)` parameter
to the returned bytes; `errAfterGetString` is the code the error poll after
that call reports. -/

/-- The `ALC_ENUMERATE_ALL_EXT` extension record: its two named specifier
constants, each individually fallible. -/
structure EnumerateAllExt where
  ALC_DEFAULT_ALL_DEVICES_SPECIFIER : AltoResult Int
  ALC_ALL_DEVICES_SPECIFIER : AltoResult Int
  deriving DecidableEq, Repr

/-- The `ALC_SOFT_loopback` extension record: the optional
`alcLoopbackOpenDeviceSOFT` entry point (presence only; the handle the call
returns is a separate oracle). -/
structure SoftLoopbackExt where
  alcLoopbackOpenDeviceSOFT : AltoResult Unit
  deriving DecidableEq, Repr

/-- Oracle environment for the `Alto` root handle: outcomes of its null-device
extension-cache lookups and of the native string queries. -/
structure AltoEnv where
  enumerateAllExt : AltoResult EnumerateAllExt
  softLoopbackExt : AltoResult SoftLoopbackExt
  getString : Int → List Nat
  errAfterGetString : Int

/-- `Alto::default_output`: prefers the `ALC_ENUMERATE_ALL_EXT` default-device
specifier (propagating a failure of that constant) and falls back to the
standard `ALC_DEFAULT_DEVICE_SPECIFIER` when the extension is absent; the
returned string stands only if the post-query error poll is clean. -/
def Alto.default_output (env : AltoEnv) : AltoResult (List Nat) :=
  let specRes : AltoResult (List Nat) :=
    match env.enumerateAllExt with
    | Except.ok ea =>
      match ea.ALC_DEFAULT_ALL_DEVICES_SPECIFIER with
      | Except.ok p => Except.ok (env.getString p)
      | Except.error e => Except.error e
    | Except.error _ => Except.ok (env.getString ALC_DEFAULT_DEVICE_SPECIFIER)
  match specRes with
  | Except.error e => Except.error e
  | Except.ok spec => (Alto.get_error env.errAfterGetString).map fun _ => spec

/-- `Alto::default_capture`: queries `ALC_CAPTURE_DEFAULT_DEVICE_SPECIFIER`
and surfaces the post-query error poll. -/
def Alto.default_capture (env : AltoEnv) : AltoResult (List Nat) :=
  let spec := env.getString ALC_CAPTURE_DEFAULT_DEVICE_SPECIFIER
  (Alto.get_error env.errAfterGetString).map fun _ => spec

/-- A `Device`: specifier, raw handle, and the pause reference count (fresh at
`0`).  The `alto` back-reference and extension cache are modelled externally. -/
structure Device where
  spec : List Nat
  dev : Nat
  pause_rc : Nat
  deriving DecidableEq, Repr

/-- A `LoopbackDevice` (the frame-type marker is a compile-time tag with no
runtime content). -/
structure LoopbackDevice where
  spec : List Nat
  dev : Nat
  deriving DecidableEq, Repr

/-- A `CaptureDevice`: no extension cache, just specifier and handle. -/
structure CaptureDevice where
  spec : List Nat
  dev : Nat
  deriving DecidableEq, Repr

/-- `impl PartialEq for Device`: `self.dev == other.dev`. -/
def Device.eq (a b : Device) : Bool := a.dev == b.dev

/-- `impl PartialEq for LoopbackDevice`: `self.dev == other.dev`. -/
def LoopbackDevice.eq (a b : LoopbackDevice) : Bool := a.dev == b.dev

/-- `impl PartialEq for CaptureDevice`: `self.dev == other.dev`. -/
def CaptureDevice.eq (a b : CaptureDevice) : Bool := a.dev == b.dev

/-- `Alto::open` (`open` is a Lean keyword, hence `openDevice`): resolves the
specifier (defaulting via `default_output`), calls `alcOpenDevice` (whose
returned handle is the `dev` oracle), polls the error code (`errAfterOpen`),
and treats a null handle as `AlcInvalidDevice` even when the poll was clean. -/
def Alto.openDevice (env : AltoEnv) (spec? : Option (List Nat)) (dev : Nat)
    (errAfterOpen : Int) : AltoResult Device :=
  match (match spec? with
         | some s => Except.ok s
         | none => Alto.default_output env) with
  | Except.error e => Except.error e
  | Except.ok s =>
    match Alto.get_error errAfterOpen with
    | Except.error e => Except.error e
    | Except.ok _ =>
      if dev = 0 then Except.error AltoError.AlcInvalidDevice
      else Except.ok { spec := s, dev := dev, pause_rc := 0 }

/-- Native calls recorded by the `open_loopback` trace. -/
inductive NativeCall where
  | getString
  | loopbackOpen
  deriving DecidableEq, Repr

/-- `Alto::open_loopback`: resolves `ALC_SOFT_loopback` first (its failure
returns immediately), then resolves the specifier (defaulting via
`default_output`, recorded as a `getString` native call), then requires the
`alcLoopbackOpenDeviceSOFT` entry point, calls it (recorded; the returned
handle is the `dev` oracle), polls the error code, and treats a null handle as
`AlcInvalidDevice`.  The second component is the trace of native calls made. -/
def Alto.open_loopback (env : AltoEnv) (spec? : Option (List Nat)) (dev : Nat)
    (errCode : Int) : AltoResult LoopbackDevice × List NativeCall :=
  match env.softLoopbackExt with
  | Except.error e => (Except.error e, [])
  | Except.ok sl =>
    let specRes : AltoResult (List Nat) × List NativeCall :=
      match spec? with
      | some s => (Except.ok s, [])
      | none => (Alto.default_output env, [NativeCall.getString])
    match specRes.1 with
    | Except.error e => (Except.error e, specRes.2)
    | Except.ok s =>
      match sl.alcLoopbackOpenDeviceSOFT with
      | Except.error e => (Except.error e, specRes.2)
      | Except.ok _ =>
        let tr := specRes.2 ++ [NativeCall.loopbackOpen]
        match Alto.get_error errCode with
        | Except.error e => (Except.error e, tr)
        | Except.ok _ =>
          if dev = 0 then (Except.error AltoError.AlcInvalidDevice, tr)
          else (Except.ok { spec := s, dev := dev }, tr)

/-- `Alto::open_capture`: resolves the specifier — for `None` it calls
`default_output`, not `default_capture` — then calls `alcCaptureOpenDevice`
with the format/rate/size parameters (returned handle: the `dev` oracle),
polls the error code, and treats a null handle as `AlcInvalidDevice`. -/
def Alto.open_capture (env : AltoEnv) (spec? : Option (List Nat))
    (freq fmt size : Int) (dev : Nat) (errAfterOpen : Int) :
    AltoResult CaptureDevice :=
  match (match spec? with
         | some s => Except.ok s
         | none => Alto.default_output env) with
  | Except.error e => Except.error e
  | Except.ok s =>
    match Alto.get_error errAfterOpen with
    | Except.error e => Except.error e
    | Except.ok _ =>
      if dev = 0 then Except.error AltoError.AlcInvalidDevice
      else Except.ok { spec := s, dev := dev }

/-- `impl DeviceTrait for LoopbackDevice`, `connected`: literally `Ok(true)` —
no extension lookup, no native query. -/
def LoopbackDevice.connected (_d : LoopbackDevice) : AltoResult Bool :=
  Except.ok true

/-! ## Pause guard (`SoftPauseLock`)

The device state visible to the guard: the shared atomic `pause_rc` counter
and the native device's paused flag (the effect of the native
`alcDevicePauseSOFT` / `alcDeviceResumeSOFT` calls). -/

/-- The pause-relevant state of a device: the `pause_rc` counter and whether
the native device is currently paused. -/
structure PauseState where
  pause_rc : Nat
  paused : Bool
  deriving DecidableEq, Repr

/-- `SoftPauseLock::new`: requires `ALC_SOFT_pause_device` and its
`alcDevicePauseSOFT` entry point (`extOk`); increments the counter; on the
0→1 transition invokes the native pause (whose error-poll outcome is the
`pauseErr` oracle — on failure the native device is not paused, the counter is
rolled back and the error returned).  Result: the construction outcome (`ok`
iff a guard was produced), the new state, and whether the native pause call
was invoked. -/
def SoftPauseLock.new (extOk : Bool) (pauseErr : Option AltoError) (s : PauseState) :
    AltoResult Unit × PauseState × Bool :=
  if extOk = false then (Except.error AltoError.AlcExtensionNotPresent, s, false)
  else
    let old := s.pause_rc
    let s1 : PauseState := { s with pause_rc := s.pause_rc + 1 }
    if old = 0 then
      match pauseErr with
      | some e => (Except.error e, { s1 with pause_rc := s1.pause_rc - 1 }, true)
      | none => (Except.ok (), { s1 with paused := true }, true)
    else (Except.ok (), s1, false)

/-- `impl Drop for SoftPauseLock`: decrements the counter; only the 1→0
transition invokes the native resume (whose failure is merely logged).
Result: the new state and whether the native resume call was invoked. -/
def SoftPauseLock.drop (s : PauseState) : PauseState × Bool :=
  let old := s.pause_rc
  let s1 : PauseState := { s with pause_rc := s.pause_rc - 1 }
  if old = 1 then ({ s1 with paused := false }, true) else (s1, false)

/-- One event in a pause-guard history: a construction attempt (with its
extension-resolution and native-pause oracles) or the drop of a live guard. -/
inductive PauseOp where
  | construct (extOk : Bool) (pauseErr : Option AltoError)
  | drop
  deriving DecidableEq, Repr

/-- Runs a history of guard constructions/destructions from a state paired
with the number of live guards.  A successful construction adds a live guard;
a `drop` event destroys one (when none is live there is no guard to drop, so
the event is a no-op). -/
def runPauseOps : List PauseOp → PauseState × Nat → PauseState × Nat
  | [], sg => sg
  | PauseOp.construct extOk perr :: rest, (s, g) =>
    let r := SoftPauseLock.new extOk perr s
    runPauseOps rest (r.2.1, if r.1.toBool then g + 1 else g)
  | PauseOp.drop :: rest, (s, g) =>
    if g = 0 then runPauseOps rest (s, g)
    else runPauseOps rest ((SoftPauseLock.drop s).1, g - 1)

/-! ## Helper lemmas -/

theorem enumScanLen_succ_cons (n : Nat) (l : List Nat) :
    enumScanLen ((n + 1) :: l) = 1 + enumScanLen l := rfl

theorem enumScanLen_zero_succ (m : Nat) (l : List Nat) :
    enumScanLen (0 :: (m + 1) :: l) = 1 + enumScanLen ((m + 1) :: l) := rfl

theorem hasAdjZero_succ_cons (n : Nat) (l : List Nat) :
    hasAdjZero ((n + 1) :: l) = hasAdjZero l := rfl

theorem hasAdjZero_zero_succ (m : Nat) (l : List Nat) :
    hasAdjZero (0 :: (m + 1) :: l) = hasAdjZero ((m + 1) :: l) := rfl

/-- On a table made of a terminator-free prefix, the double-NUL terminator and
arbitrary junk beyond it, the scan of `parse_enum_spec` breaks exactly at the
terminator, independently of the junk. -/
theorem enumScanLen_terminated (junk : List Nat) :
    ∀ pre : List Nat, hasAdjZero (pre ++ [0]) = false →
      enumScanLen (pre ++ 0 :: 0 :: junk) = pre.length := by
  intro pre
  induction pre with
  | nil => intro _; rfl
  | cons a rest ih =>
    intro h
    cases a with
    | succ n =>
      have h' : hasAdjZero (rest ++ [0]) = false := by
        simpa [hasAdjZero_succ_cons] using h
      simp only [List.cons_append, enumScanLen_succ_cons, ih h', List.length_cons]
      omega
    | zero =>
      cases rest with
      | nil => simp [hasAdjZero] at h
      | cons b rest' =>
        cases b with
        | zero => simp [hasAdjZero] at h
        | succ m =>
          have h' : hasAdjZero (((m + 1) :: rest') ++ [0]) = false := by
            simpa [hasAdjZero_zero_succ, List.cons_append] using h
          have ihr := ih h'
          simp only [List.cons_append] at ihr ⊢
          rw [enumScanLen_zero_succ, ihr]
          simp [List.length_cons]
          omega

/-! ## Claim theorems -/

/-- C2, counterexample: on the table containing only the terminating double
NUL the parser yields the one-element sequence containing the empty string —
not the empty sequence the claim states (Rust `slice::split` yields one empty
piece on the empty slice). -/
theorem parse_enum_spec_empty_table_cex :
    Alto.parse_enum_spec [0, 0] = Except.ok [[]]
    ∧ Alto.parse_enum_spec [0, 0] ≠ Except.ok [] := by decide

/-- C2 (amended): `parse_enum_spec` on `{0,0}` yields the one-element sequence
containing the empty string; on `{'A',0,'B','C',0,0,0}` it yields exactly
`["A", "BC"]`; and the scan never reads past the terminating double NUL: on
any table consisting of a prefix free of adjacent NULs, the double-NUL
terminator and arbitrary bytes beyond it, the result does not depend on the
bytes beyond the terminator. -/
theorem parse_enum_spec_ok :
    Alto.parse_enum_spec [0, 0] = Except.ok [[]]
  ∧ Alto.parse_enum_spec [65, 0, 66, 67, 0, 0, 0] = Except.ok [[65], [66, 67]]
  ∧ ∀ pre junk : List Nat, hasAdjZero (pre ++ [0]) = false →
      Alto.parse_enum_spec (pre ++ 0 :: 0 :: junk) = Alto.parse_enum_spec (pre ++ [0, 0]) := by
  refine ⟨by decide, by decide, ?_⟩
  intro pre junk h
  have h1 := enumScanLen_terminated junk pre h
  have h2 := enumScanLen_terminated [] pre h
  simp only [Alto.parse_enum_spec]
  have e2 : pre ++ [0, 0] = pre ++ 0 :: 0 :: [] := rfl
  rw [e2, h1, h2, List.take_left, List.take_left]

/-- C2 witness for the amended claim's junk-insensitivity hypothesis. -/
theorem parse_enum_spec_ok_witness :
    Alto.parse_enum_spec ([65] ++ 0 :: 0 :: [9, 9]) = Alto.parse_enum_spec ([65] ++ [0, 0]) :=
  parse_enum_spec_ok.2.2 [65] [9, 9] (by decide)

/-- C3, counterexample: a native library reporting version 2.3 fails the
version check with the unsupported-version error, contrary to the claim that
it passes. -/
theorem check_version_2_3_cex :
    Alto.check_version 2 3 = Except.error AltoError.AlcUnsupportedVersion := by decide

/-- C3 (amended): loading against a library reporting version 1.0 fails with
the unsupported-version error before any device can be opened; version 1.1
passes the check; but version 2.3 fails it as well — the check accepts exactly
major = 1 and minor ≥ 1. -/
theorem check_version_cases :
    Alto.check_version 1 0 = Except.error AltoError.AlcUnsupportedVersion
  ∧ Alto.check_version 1 1 = Except.ok ()
  ∧ Alto.check_version 2 3 = Except.error AltoError.AlcUnsupportedVersion
  ∧ ∀ major minor : Int,
      Alto.check_version major minor = Except.ok () ↔ (major = 1 ∧ 1 ≤ minor) := by
  refine ⟨by decide, by decide, by decide, ?_⟩
  intro major minor
  simp only [Alto.check_version]
  split <;> simp_all

/-- C7: `open_loopback` resolves the `ALC_SOFT_loopback` extension before
doing anything else — when the lookup fails, it returns that missing-extension
error, having performed no native call at all (in particular it neither
resolves a specifier nor opens a device). -/
theorem open_loopback_ext_first (env : AltoEnv) (e : AltoError)
    (h : env.softLoopbackExt = Except.error e) :
    ∀ (spec? : Option (List Nat)) (dev : Nat) (errCode : Int),
      Alto.open_loopback env spec? dev errCode = (Except.error e, []) := by
  intro spec? dev errCode
  simp [Alto.open_loopback, h]

/-- An environment in which no extension resolves. -/
def envNoLoopback : AltoEnv :=
  { enumerateAllExt := Except.error AltoError.AlcExtensionNotPresent
    softLoopbackExt := Except.error AltoError.AlcExtensionNotPresent
    getString := fun _ => []
    errAfterGetString := 0 }

/-- C7 witness: concrete environment with the loopback extension missing. -/
theorem open_loopback_ext_first_witness :
    Alto.open_loopback envNoLoopback none 5 0
      = (Except.error AltoError.AlcExtensionNotPresent, []) :=
  open_loopback_ext_first envNoLoopback AltoError.AlcExtensionNotPresent rfl none 5 0

/-- C8: for each device-family type, equality is raw-handle identity — it
holds iff the native handles are numerically equal, and the specifier strings
play no role (replacing either specifier leaves equality unchanged). -/
theorem device_eq_is_handle_identity :
    (∀ a b : Device, Device.eq a b = true ↔ a.dev = b.dev)
  ∧ (∀ a b : LoopbackDevice, LoopbackDevice.eq a b = true ↔ a.dev = b.dev)
  ∧ (∀ a b : CaptureDevice, CaptureDevice.eq a b = true ↔ a.dev = b.dev)
  ∧ (∀ (a b : Device) (s t : List Nat),
      Device.eq { a with spec := s } { b with spec := t } = Device.eq a b)
  ∧ (∀ (a b : LoopbackDevice) (s t : List Nat),
      LoopbackDevice.eq { a with spec := s } { b with spec := t } = LoopbackDevice.eq a b)
  ∧ (∀ (a b : CaptureDevice) (s t : List Nat),
      CaptureDevice.eq { a with spec := s } { b with spec := t } = CaptureDevice.eq a b) := by
  refine ⟨?_, ?_, ?_, ?_, ?_, ?_⟩ <;>
    intro a b <;>
    simp [Device.eq, LoopbackDevice.eq, CaptureDevice.eq]

/-- C10: `LoopbackDevice::connected` returns `Ok(true)` unconditionally — it
takes no extension or native-query input at all, and never yields an error or
`false`. -/
theorem loopback_connected_ok_true :
    ∀ d : LoopbackDevice, d.connected = Except.ok true :=
  fun _ => rfl

/-- C4: when the native open call returns a null handle and the post-call
error poll is clean, `Alto::open` returns the distinguished invalid-device
error (first conjunct, for any successfully resolved specifier); and `open`
never returns a successful result wrapping a null handle (second conjunct). -/
theorem open_null_is_invalid_device :
    (∀ (env : AltoEnv) (spec? : Option (List Nat)) (s : List Nat),
        (match spec? with
         | some t => Except.ok t
         | none => Alto.default_output env) = Except.ok s →
        Alto.openDevice env spec? 0 ALC_NO_ERROR = Except.error AltoError.AlcInvalidDevice)
  ∧ (∀ (env : AltoEnv) (spec? : Option (List Nat)) (dev : Nat) (errCode : Int) (d : Device),
        Alto.openDevice env spec? dev errCode = Except.ok d → d.dev ≠ 0) := by
  constructor
  · intro env spec? s h
    simp [Alto.openDevice, h, Alto.get_error]
  · intro env spec? dev errCode d h
    simp only [Alto.openDevice] at h
    split at h
    · exact absurd h (by simp)
    · split at h
      · exact absurd h (by simp)
      · split at h
        · exact absurd h (by simp)
        · rename_i hdev
          obtain rfl : _ = d := by simpa using h
          simpa using hdev

/-- C4 witness: a null handle with a clean error poll yields the
invalid-device error, and a concrete successful open has a non-null handle. -/
theorem open_null_is_invalid_device_witness :
    Alto.openDevice envNoLoopback (some [65]) 0 ALC_NO_ERROR
      = Except.error AltoError.AlcInvalidDevice
    ∧ ({ spec := [65], dev := 5, pause_rc := 0 } : Device).dev ≠ 0 :=
  ⟨open_null_is_invalid_device.1 envNoLoopback (some [65]) [65] rfl,
   open_null_is_invalid_device.2 envNoLoopback (some [65]) 5 0
     { spec := [65], dev := 5, pause_rc := 0 } (by decide)⟩

/-- C6: when the native pause call made by `SoftPauseLock::new` on the 0→1
counter transition fails its error poll, construction returns that error, no
guard is produced, and the device state (counter and paused flag) is exactly
what it was before the call; the native pause call was the one call made. -/
theorem soft_pause_new_rollback (e : AltoError) (s : PauseState) (h : s.pause_rc = 0) :
    SoftPauseLock.new true (some e) s = (Except.error e, s, true) := by
  rcases s with ⟨rc, p⟩
  simp only at h
  subst h
  rfl

/-- C6 witness at the fresh pause state. -/
theorem soft_pause_new_rollback_witness :
    SoftPauseLock.new true (some AltoError.AlcInvalidDevice) ⟨0, false⟩
      = (Except.error AltoError.AlcInvalidDevice, ⟨0, false⟩, true) :=
  soft_pause_new_rollback AltoError.AlcInvalidDevice ⟨0, false⟩ rfl

/-- An environment in which the default output specifier (`"OUT"`) differs
from the default capture specifier (`"CAP"`). -/
def envCaptureDemo : AltoEnv :=
  { enumerateAllExt := Except.error AltoError.AlcExtensionNotPresent
    softLoopbackExt := Except.error AltoError.AlcExtensionNotPresent
    getString := fun p =>
      if p = ALC_DEFAULT_DEVICE_SPECIFIER then [79, 85, 84]
      else if p = ALC_CAPTURE_DEFAULT_DEVICE_SPECIFIER then [67, 65, 80]
      else []
    errAfterGetString := 0 }

/-- C9: `Alto::open_capture` with no specifier resolves the default via
`default_output`, not `default_capture`: whenever `default_output` succeeds,
the opened capture device's specifier is exactly its result (first conjunct);
concretely, in an environment where the default output specifier is `"OUT"`
and the default capture specifier is `"CAP"`, the capture device is opened
with `"OUT"` (second conjunct). -/
theorem open_capture_uses_default_output :
    (∀ (env : AltoEnv) (freq fmt size : Int) (dev : Nat) (errC : Int)
        (s : List Nat) (d : CaptureDevice),
        Alto.default_output env = Except.ok s →
        Alto.open_capture env none freq fmt size dev errC = Except.ok d →
        d.spec = s)
  ∧ (Alto.open_capture envCaptureDemo none 44100 0 1024 7 ALC_NO_ERROR
        = Except.ok { spec := [79, 85, 84], dev := 7 }
     ∧ Alto.default_capture envCaptureDemo = Except.ok [67, 65, 80]
     ∧ ([79, 85, 84] : List Nat) ≠ [67, 65, 80]) := by
  constructor
  · intro env freq fmt size dev errC s d hout h
    simp only [Alto.open_capture, hout] at h
    split at h
    · exact absurd h (by simp)
    · split at h
      · exact absurd h (by simp)
      · obtain rfl : _ = d := by simpa using h
        rfl
  · refine ⟨by decide, by decide, by decide⟩

/-- C9 witness discharging the two hypotheses of the universal part at the
concrete demonstration environment. -/
theorem open_capture_uses_default_output_witness :
    ({ spec := [79, 85, 84], dev := 7 } : CaptureDevice).spec = [79, 85, 84] :=
  open_capture_uses_default_output.1 envCaptureDemo 44100 0 1024 7 ALC_NO_ERROR
    [79, 85, 84] { spec := [79, 85, 84], dev := 7 } (by decide) (by decide)

/-- C5: with `frequency = 44100` and every other option absent,
`make_attrs_vec` yields exactly `[ALC_FREQUENCY, 44100, 0]` whatever the HRTF
extension lookup returned (first conjunct); and for every `ContextAttrs`
value, absent options contribute no pairs: a successfully built list consists
of exactly one key/value pair per present (and emitted) option plus the single
trailing zero (second conjunct). -/
theorem make_attrs_vec_spec :
    (∀ hrtfExt : AltoResult SoftHrtfExt,
        Device.make_attrs_vec hrtfExt
            (some ⟨some 44100, none, none, none, none, none⟩)
          = Except.ok [ALC_FREQUENCY, 44100, 0])
  ∧ (∀ (hrtfExt : AltoResult SoftHrtfExt) (a : ContextAttrs) (l : List Int),
        Device.make_attrs_vec hrtfExt (some a) = Except.ok l →
        l.length = 2 * numPresent (extResolved hrtfExt) a + 1) := by
  constructor
  · intro hrtfExt
    cases hrtfExt <;> rfl
  · intro hrtfExt a l h
    rcases a with ⟨f, r, m, st, sh, shid⟩
    cases hrtfExt with
    | error e =>
      cases f <;> cases r <;> cases m <;> cases st <;>
        (simp only [Device.make_attrs_vec] at h;
         obtain rfl : _ = l := by simpa using h;
         simp [numPresent, extResolved];
         try omega)
    | ok ash =>
      rcases ash with ⟨hs, hid⟩
      cases f <;> cases r <;> cases m <;> cases st <;> cases sh <;> cases shid <;>
        cases hs <;> cases hid <;>
        (simp only [Device.make_attrs_vec] at h;
         first
           | exact Except.noConfusion h
           | (obtain rfl : _ = l := by simpa using h;
              simp [numPresent, extResolved];
              try omega))

/-- C5 witness: a concrete successful build with some options absent. -/
theorem make_attrs_vec_spec_witness :
    ([ALC_FREQUENCY, 44100, ALC_MONO_SOURCES, 8, 0] : List Int).length
      = 2 * numPresent
          (extResolved (Except.error AltoError.AlcExtensionNotPresent : AltoResult SoftHrtfExt))
          ⟨some 44100, none, some 8, none, none, none⟩ + 1 :=
  make_attrs_vec_spec.2 (Except.error AltoError.AlcExtensionNotPresent)
    ⟨some 44100, none, some 8, none, none, none⟩
    [ALC_FREQUENCY, 44100, ALC_MONO_SOURCES, 8, 0] (by decide)

/-- The pause-guard invariant: the `pause_rc` counter equals the number of
live guards, and the native device is paused exactly when at least one guard
is live. -/
def PInv (sg : PauseState × Nat) : Prop :=
  sg.1.pause_rc = sg.2 ∧ (sg.1.paused = true ↔ 1 ≤ sg.2)

theorem softPauseNew_step (extOk : Bool) (perr : Option AltoError)
    (s : PauseState) (g : Nat) (h : PInv (s, g)) :
    PInv ((SoftPauseLock.new extOk perr s).2.1,
          if (SoftPauseLock.new extOk perr s).1.toBool then g + 1 else g) := by
  obtain ⟨h1, h2⟩ := h
  rcases s with ⟨rc, p⟩
  simp only at h1 h2
  subst h1
  cases extOk with
  | false => exact ⟨rfl, h2⟩
  | true =>
    cases rc with
    | zero =>
      cases perr with
      | some e =>
        refine ⟨rfl, ?_⟩
        simpa [SoftPauseLock.new, Except.toBool] using h2
      | none =>
        constructor <;> simp [SoftPauseLock.new, Except.toBool]
    | succ n =>
      cases p with
      | false =>
        exfalso
        simp at h2
      | true =>
        constructor <;> simp [SoftPauseLock.new, Except.toBool]

theorem softPauseDrop_step (s : PauseState) (g : Nat) (hg : 1 ≤ g)
    (h : PInv (s, g)) : PInv ((SoftPauseLock.drop s).1, g - 1) := by
  obtain ⟨h1, h2⟩ := h
  rcases s with ⟨rc, p⟩
  simp only at h1 h2
  subst h1
  cases rc with
  | zero => omega
  | succ n =>
    cases n with
    | zero => constructor <;> simp [SoftPauseLock.drop]
    | succ k =>
      cases p with
      | false =>
        exfalso
        simp at h2
      | true =>
        constructor <;> simp [SoftPauseLock.drop]

theorem runPauseOps_inv (ops : List PauseOp) :
    ∀ sg : PauseState × Nat, PInv sg → PInv (runPauseOps ops sg) := by
  induction ops with
  | nil => intro sg h; exact h
  | cons op rest ih =>
    intro sg h
    rcases sg with ⟨s, g⟩
    cases op with
    | construct extOk perr =>
      exact ih _ (softPauseNew_step extOk perr s g h)
    | drop =>
      by_cases hg : g = 0
      · subst hg
        simpa [runPauseOps] using ih _ h
      · have hstep : PInv ((SoftPauseLock.drop s).1, g - 1) :=
          softPauseDrop_step s g (by omega) h
        simpa [runPauseOps, hg] using ih _ hstep

/-- C1: over every sequence of pause-guard constructions and destructions
starting from a fresh device, the counter always equals the number of live
guards and the native device is paused iff at least one guard is live (first
conjunct, hence at every instant, since every prefix of a history is itself a
history); the native pause call is invoked exactly on the counter transition
0→1 (second conjunct), and the native resume call exactly on the transition
1→0 (third conjunct). -/
theorem soft_pause_lock_correct :
    (∀ ops : List PauseOp,
        (runPauseOps ops (⟨0, false⟩, 0)).1.pause_rc = (runPauseOps ops (⟨0, false⟩, 0)).2
      ∧ ((runPauseOps ops (⟨0, false⟩, 0)).1.paused = true
          ↔ 1 ≤ (runPauseOps ops (⟨0, false⟩, 0)).2))
  ∧ (∀ (extOk : Bool) (perr : Option AltoError) (s : PauseState),
        (SoftPauseLock.new extOk perr s).2.2 = true ↔ (extOk = true ∧ s.pause_rc = 0))
  ∧ (∀ s : PauseState, (SoftPauseLock.drop s).2 = true ↔ s.pause_rc = 1) := by
  refine ⟨?_, ?_, ?_⟩
  · intro ops
    exact runPauseOps_inv ops (⟨0, false⟩, 0) ⟨rfl, by simp⟩
  · intro extOk perr s
    rcases s with ⟨rc, p⟩
    cases extOk <;> cases perr <;> cases rc <;>
      simp [SoftPauseLock.new]
  · intro s
    rcases s with ⟨rc, p⟩
    match rc with
    | 0 => simp [SoftPauseLock.drop]
    | 1 => simp [SoftPauseLock.drop]
    | n + 2 => simp [SoftPauseLock.drop]
